import Mathlib

/-!
Verification of the OTF font integrity checker (`font_checker.py`).

The checker's external collaborators (the fontTools `TTFont` parser and the
filesystem) are modelled abstractly: a `FontFile` records exactly the
observations the checker can make about one candidate file — its byte size,
whether `TTFont(path, lazy=True)` succeeds, which tables are present, whether
reading the head table (and its `magicNumber`) succeeds, the magic number
value, whether accessing the name table succeeds, and the list of name
records (each with its `nameID`, whether `toUnicode()` succeeds, and the
decoded text).  The checker itself is translated clause by clause from the
source; its reason strings are the exact Korean literals of the source.

Python string methods used by the source (`str.lower`, `str.endswith`,
`str.strip`, `any(... for c in s)`) are modelled by explicit functions over
the string's character list, so that every definition evaluates inside the
kernel.  `Char.isAlphanum` approximates Python's Unicode-aware
`str.isalnum` (they agree on ASCII); no claim depends on the difference.
-/

set_option maxRecDepth 4000

namespace FontCheck

/-- Python `s.lower()`: lowercase every character. -/
def strLower (s : String) : String := ⟨s.data.map Char.toLower⟩

/-- Python `s.endswith(suf)`: the last characters of `s` equal `suf`. -/
def strEndsWith (s suf : String) : Bool :=
  s.data.drop (s.data.length - suf.data.length) == suf.data

/-- Python `s.strip()`: drop leading and trailing whitespace. -/
def strTrim (s : String) : String :=
  ⟨((s.data.dropWhile Char.isWhitespace).reverse.dropWhile Char.isWhitespace).reverse⟩

/-- Python `any(p(c) for c in s)`. -/
def strAny (s : String) (p : Char → Bool) : Bool := s.data.any p

/-- One record of the font's name table, as observed through fontTools:
`nameID`, whether `record.toUnicode()` succeeds (`decodeOk`), and the decoded
text when it does. -/
structure NameRecord where
  nameID : Nat
  decodeOk : Bool
  text : String
deriving DecidableEq, Repr

/-- Abstract view of one candidate font file: everything `font_checker.py`
can observe about it through `Path.stat`, `TTFont(path, lazy=True)` and the
table accesses it performs.  `path` stands for the file's path (the printed
`font_path.name` is modelled by the same string); `loadOk` is whether the
`TTFont` constructor returns without raising; `loadErr` is the exception text
when it raises; `tables` are the table tags present (`t in font`);
`headReadOk` is whether `font['head'].magicNumber` can be read without
raising; `nameReadOk` is whether `font['name'].names` can be accessed and
iterated without raising. -/
structure FontFile where
  path : String
  size : Nat
  loadOk : Bool
  loadErr : String
  tables : List String
  headReadOk : Bool
  magicNumber : Nat
  nameReadOk : Bool
  names : List NameRecord
deriving DecidableEq, Repr

/-- Result of `check_font_integrity`, instrumented for resource accounting:
`valid`/`reason` are the returned pair; `opened` records whether the
`TTFont` constructor succeeded on this execution path, and `closes` counts
the `font.close()` calls executed before the return. -/
structure CheckResult where
  valid : Bool
  reason : String
  opened : Bool
  closes : Nat
deriving DecidableEq, Repr

/-- The head table magic constant the checker expects (`0x5F0F3CF5`). -/
def magicExpected : Nat := 0x5F0F3CF5

/-- `required_tables = ['head', 'name', 'cmap']` from the source. -/
def required_tables : List String := ["head", "name", "cmap"]

/-- The first required table missing from the font, in the source's check
order, mirroring the `for table in required_tables: if table not in font`
loop. -/
def firstMissingTable (tables : List String) : Option String :=
  required_tables.find? (fun t => !(tables.contains t))

/-- The source's test on a decoded name string:
`if name_str and len(name_str.strip()) > 0: if any(c.isalnum() for c in name_str)`. -/
def validNameStr (s : String) : Bool :=
  (!s.isEmpty) && (!(strTrim s).isEmpty) && strAny s Char.isAlphanum

/-- The name-table loop of check step 5.  Walks the records in order; on a
`nameID == 1` record whose `toUnicode()` raises, the loop's enclosing `try`
aborts (`none`); on a `nameID == 1` record with a valid decoded string the
loop breaks with success (`some true`); otherwise it continues, ending with
`some false` (no valid font name found). -/
def nameScan : List NameRecord → Option Bool
  | [] => some false
  | r :: rs =>
    if r.nameID == 1 then
      if !r.decodeOk then none
      else if validNameStr r.text then some true
      else nameScan rs
    else nameScan rs

/-- `FontChecker.check_font_integrity`, translated clause by clause.
Checks run in the source's order: size, `TTFont` load, required tables,
head magic number, name records.  Every branch after a successful open
executes `font.close()` exactly once before returning, which the
instrumentation fields record.  The only statements between the successful
open and the inner `try` blocks are dictionary-membership tests
(`table not in font`), which do not raise, so no exception reaches the outer
handler once the font is open. -/
def check_font_integrity (f : FontFile) : CheckResult :=
  if f.size < 1024 then
    { valid := false, reason := ("파일이 너무 작음"), opened := false, closes := 0 }
  else if !f.loadOk then
    { valid := false, reason := ("로딩 실패: ") ++ f.loadErr.take 50, opened := false, closes := 0 }
  else
    match firstMissingTable f.tables with
    | some t =>
        { valid := false, reason := ("필수 테이블 누락: ") ++ t, opened := true, closes := 1 }
    | none =>
        if !f.headReadOk then
          { valid := false, reason := ("head 테이블 읽기 실패"), opened := true, closes := 1 }
        else if !(f.magicNumber == magicExpected) then
          { valid := false, reason := ("잘못된 매직넘버"), opened := true, closes := 1 }
        else if !f.nameReadOk then
          { valid := false, reason := ("name 테이블 읽기 실패"), opened := true, closes := 1 }
        else
          match nameScan f.names with
          | none => { valid := false, reason := ("name 테이블 읽기 실패"), opened := true, closes := 1 }
          | some true => { valid := true, reason := ("정상"), opened := true, closes := 1 }
          | some false => { valid := false, reason := ("유효한 폰트 이름 없음"), opened := true, closes := 1 }

/-- The `name`/`size`/`path` dictionary built by `FontChecker.get_font_info`. -/
structure FontMeta where
  name : String
  size : Nat
  path : String
deriving DecidableEq, Repr

/-- `FontChecker.get_font_info`: reopen the font and extract a display name
from the first `nameID == 1` record that decodes (truncated to 50
characters); per-record decode failures are skipped (`continue`); a load or
name-table failure falls to the `except` branch with name `"읽기 실패"`. -/
def get_font_info (f : FontFile) : FontMeta :=
  if !f.loadOk then { name := ("읽기 실패"), size := f.size, path := f.path }
  else if !(f.tables.contains ("name")) then { name := ("알 수 없음"), size := f.size, path := f.path }
  else if !f.nameReadOk then { name := ("읽기 실패"), size := f.size, path := f.path }
  else
    match f.names.find? (fun r => r.nameID == 1 && r.decodeOk) with
    | some r => { name := r.text.take 50, size := f.size, path := f.path }
    | none => { name := ("알 수 없음"), size := f.size, path := f.path }

/-- One line printed by `process_single_font` under the lock: either the
progress line `[processed/total] (percent%) filename - status` — `percent`
carries the exact rational `processed / total * 100` from which the `.1f`
display is formatted, and `ok` the verdict shown as `✓ 정상` / `✗ 손상됨` —
or the indented failure-reason line printed only for invalid fonts. -/
inductive OutLine where
  | progress (processed total : Nat) (percent : Rat) (filename : String) (ok : Bool)
  | failReason (msg : String)
deriving DecidableEq, Repr

/-- Whether an output line is the progress line. -/
def OutLine.isProgressLine : OutLine → Bool
  | .progress .. => true
  | .failReason _ => false

/-- The `progress = (processed / total) * 100` computation of
`process_single_font` (exact rational in place of the Python float). -/
def ratPercent (processed total : Nat) : Rat :=
  ((processed : Rat) / (total : Rat)) * 100

/-- The shared state of one `FontChecker` sweep: the dry-run flag and worker
count from the constructor, the two result lists, and the two counters, all
of which the source mutates only inside `with self.lock`. -/
structure Session where
  dry_run : Bool
  max_workers : Nat
  valid_fonts : List (FontFile × FontMeta)
  corrupted_fonts : List (FontFile × FontMeta × String)
  processed_count : Nat
  total_count : Nat
deriving DecidableEq, Repr

/-- `FontChecker.process_single_font`: run the integrity check and
`get_font_info`, then — atomically under the lock — increment the processed
counter, append the verdict record to exactly one of the two result lists,
and print the progress line (plus the reason line when invalid).  Returns
the updated session and the lines printed. -/
def process_single_font (s : Session) (f : FontFile) : Session × List OutLine :=
  if (check_font_integrity f).valid then
    ({ s with processed_count := s.processed_count + 1,
              valid_fonts := s.valid_fonts ++ [(f, get_font_info f)] },
     [OutLine.progress (s.processed_count + 1) s.total_count
        (ratPercent (s.processed_count + 1) s.total_count) f.path true])
  else
    ({ s with processed_count := s.processed_count + 1,
              corrupted_fonts :=
                s.corrupted_fonts ++ [(f, get_font_info f, (check_font_integrity f).reason)] },
     [OutLine.progress (s.processed_count + 1) s.total_count
        (ratPercent (s.processed_count + 1) s.total_count) f.path false,
      OutLine.failReason ((check_font_integrity f).reason)])

/-- Run the sweep's tasks in the order they complete.  Each task's critical
section is atomic (one lock guards counter, lists and printing), so any
concurrent execution of `scan_fonts` is equivalent to a sequential run over
some permutation of the candidate list; the permutation argument is that
completion order. -/
def scan_fonts_from : Session → List FontFile → Session × List OutLine
  | s, [] => (s, [])
  | s, f :: fs =>
    let p := process_single_font s f
    let rest := scan_fonts_from p.1 fs
    (rest.1, p.2 ++ rest.2)

/-- The session as `FontChecker.__init__` builds it. -/
def init_session (dry : Bool) (w : Nat) : Session :=
  { dry_run := dry, max_workers := w, valid_fonts := [], corrupted_fonts := [],
    processed_count := 0, total_count := 0 }

/-- The session state right after `scan_fonts` sets
`self.total_count = len(otf_files)` and before any task runs. -/
def startSession (dry : Bool) (w : Nat) (files : List FontFile) : Session :=
  { init_session dry w with total_count := files.length }

/-- `FontChecker.scan_fonts` on the discovered candidate list `files`,
executed under completion order `order`: with no candidates it returns
before touching `total_count`; otherwise it sets `total_count` and runs one
`process_single_font` task per candidate. -/
def scan_fonts (dry : Bool) (w : Nat) (files order : List FontFile) : Session :=
  if files.isEmpty then init_session dry w
  else (scan_fonts_from (startSession dry w files) order).1

/-- Python `file.lower().endswith('.otf')` from `find_otf_files`. -/
def isOtfName (fname : String) : Bool := strEndsWith (strLower fname) (".otf")

/-- `FontChecker.find_otf_files`.  `os.walk` is the filesystem collaborator;
its yield — one `(root, files)` pair per directory under the root,
recursively — is the function's input.  For each directory the source
appends `Path(root) / file` for every file whose lowercased name ends in
`.otf`, in walk order. -/
def find_otf_files : List (String × List String) → List String
  | [] => []
  | e :: rest =>
      ((e.2.filter isOtfName).map (fun f => e.1 ++ ("/") ++ f)) ++ find_otf_files rest

/-- Outcome of `FontChecker.delete_corrupted_fonts`: the paths on which
`os.remove` was attempted, the paths actually removed, and the reported
`deleted_count`. -/
structure DeleteOutcome where
  attempts : List String
  deleted : List String
  deleted_count : Nat
deriving DecidableEq, Repr

/-- The deletion loop of `delete_corrupted_fonts`: try `os.remove` on every
corrupted path in order; a raised `OSError` (modelled by the success oracle
`removeOk` answering `false`) is caught, logged and skipped, so later paths
are still attempted. -/
def deleteLoop (removeOk : String → Bool) : List String → DeleteOutcome
  | [] => { attempts := [], deleted := [], deleted_count := 0 }
  | p :: ps =>
    let rest := deleteLoop removeOk ps
    if removeOk p then
      { attempts := p :: rest.attempts, deleted := p :: rest.deleted,
        deleted_count := rest.deleted_count + 1 }
    else
      { attempts := p :: rest.attempts, deleted := rest.deleted,
        deleted_count := rest.deleted_count }

/-- The paths of the corrupted records, in the order the source iterates
`self.corrupted_fonts`. -/
def corruptedPaths (s : Session) : List String :=
  s.corrupted_fonts.map (fun c => c.1.path)

/-- `FontChecker.delete_corrupted_fonts`: return immediately when there is
nothing to delete or when `self.dry_run` is set (printing only); otherwise
run the deletion loop over the corrupted records. -/
def delete_corrupted_fonts (s : Session) (removeOk : String → Bool) : DeleteOutcome :=
  if s.corrupted_fonts.isEmpty then { attempts := [], deleted := [], deleted_count := 0 }
  else if s.dry_run then { attempts := [], deleted := [], deleted_count := 0 }
  else deleteLoop removeOk (corruptedPaths s)

/-- The tail of `main` (lines 259–269): when corrupted fonts were found,
without `--delete` it only prints the re-run instructions; with `--delete`
it prompts, and calls `delete_corrupted_fonts` only on the answer `y`
(compared after `response.lower()`). -/
def main_confirm_flow (delete_flag : Bool) (response : String) (s : Session)
    (removeOk : String → Bool) : DeleteOutcome :=
  if s.corrupted_fonts.isEmpty then { attempts := [], deleted := [], deleted_count := 0 }
  else if !delete_flag then { attempts := [], deleted := [], deleted_count := 0 }
  else if strLower response == ("y") then delete_corrupted_fonts s removeOk
  else { attempts := [], deleted := [], deleted_count := 0 }

/-- Result of one run of `main`: the process exit code, the final session
when the scan ran (`none` when startup failed), and the deletion outcome. -/
structure MainResult where
  exit_code : Nat
  session : Option Session
  outcome : DeleteOutcome
deriving DecidableEq, Repr

/-- `main`, from the import guard to the confirmation flow.  `fonttools_ok`
models the `ImportError` guard (`sys.exit(1)` when fontTools is missing);
`dir_ok` models `os.path.isdir(args.directory)` (`sys.exit(1)` when false).
Otherwise the checker is built with `dry_run = not args.delete`, the sweep
runs, results are displayed, and the confirmation flow may delete; the
process then ends with the interpreter's default exit code 0. -/
def main_run (fonttools_ok dir_ok delete_flag : Bool) (threads : Nat)
    (files order : List FontFile) (response : String)
    (removeOk : String → Bool) : MainResult :=
  if !fonttools_ok then
    { exit_code := 1, session := none, outcome := { attempts := [], deleted := [], deleted_count := 0 } }
  else if !dir_ok then
    { exit_code := 1, session := none, outcome := { attempts := [], deleted := [], deleted_count := 0 } }
  else
    let s := scan_fonts (!delete_flag) threads files order
    { exit_code := 0, session := some s,
      outcome := main_confirm_flow delete_flag response s removeOk }

/-- A healthy sample font, used by concrete witnesses. -/
def sampleGood : FontFile :=
  { path := ("Good.otf"), size := 2048, loadOk := true, loadErr := (""),
    tables := ["head", "name", "cmap"], headReadOk := true,
    magicNumber := 0x5F0F3CF5, nameReadOk := true,
    names := [{ nameID := 1, decodeOk := true, text := ("NanumGothic") }] }

example : (check_font_integrity sampleGood).valid = true := by decide

example : (check_font_integrity { sampleGood with size := 100 }).reason = ("파일이 너무 작음") := by
  decide

example : (check_font_integrity { sampleGood with magicNumber := 7 }).reason = ("잘못된 매직넘버") := by
  decide

example : (check_font_integrity { sampleGood with tables := ["head", "cmap"] }).reason
    = ("필수 테이블 누락: name") := by decide

example : (check_font_integrity { sampleGood with loadOk := false, loadErr := ("boom") }).reason
    = ("로딩 실패: boom") := by decide

example : get_font_info sampleGood = { name := ("NanumGothic"), size := 2048, path := ("Good.otf") } := by
  decide

example : isOtfName ("A.OTF") = true ∧ isOtfName ("b.ttf") = false := by decide

/-- Processing one font increments the processed counter by exactly one. -/
theorem process_single_font_processed (s : Session) (f : FontFile) :
    (process_single_font s f).1.processed_count = s.processed_count + 1 := by
  unfold process_single_font
  split <;> rfl

/-- Processing one font leaves the total counter unchanged. -/
theorem process_single_font_total (s : Session) (f : FontFile) :
    (process_single_font s f).1.total_count = s.total_count := by
  unfold process_single_font
  split <;> rfl

/-- C1: `process_single_font` produces exactly one verdict record per
candidate, appended to `valid_fonts` exactly when the integrity check
returned valid and to `corrupted_fonts` exactly when it returned invalid —
never to both, never to neither. -/
theorem c1_one_verdict_per_candidate (s : Session) (f : FontFile) :
    ((process_single_font s f).1.valid_fonts.length
        + (process_single_font s f).1.corrupted_fonts.length
      = s.valid_fonts.length + s.corrupted_fonts.length + 1)
    ∧ (if (check_font_integrity f).valid then
        (process_single_font s f).1.valid_fonts = s.valid_fonts ++ [(f, get_font_info f)]
          ∧ (process_single_font s f).1.corrupted_fonts = s.corrupted_fonts
      else
        (process_single_font s f).1.valid_fonts = s.valid_fonts
          ∧ (process_single_font s f).1.corrupted_fonts
              = s.corrupted_fonts ++ [(f, get_font_info f, (check_font_integrity f).reason)]) := by
  cases hv : (check_font_integrity f).valid <;>
    simp [process_single_font, hv] <;> omega

/-- C3: on every terminating execution path of `check_font_integrity` on
which the font was successfully opened, `font.close()` runs exactly once
before the return, and no close happens on paths where it was never
opened. -/
theorem c3_close_on_every_path (f : FontFile) :
    (check_font_integrity f).closes
      = if (check_font_integrity f).opened then 1 else 0 := by
  unfold check_font_integrity
  repeat' split
  all_goals simp_all

/-- C4: a candidate below 1024 bytes is reported invalid with the
"file too small" reason (`"파일이 너무 작음"`) whatever its other contents,
and the font is never opened (`opened = false`), so no parsing is
attempted. -/
theorem c4_small_file_rejected (f : FontFile) (h : f.size < 1024) :
    check_font_integrity f
      = { valid := false, reason := ("파일이 너무 작음"), opened := false, closes := 0 } := by
  unfold check_font_integrity
  rw [if_pos h]

/-- A sample font below the size threshold whose remaining fields would all
pass the later checks. -/
def sampleSmall : FontFile := { sampleGood with size := 512 }

theorem c4_small_file_rejected_witness :
    sampleSmall.size < 1024
      ∧ check_font_integrity sampleSmall
          = { valid := false, reason := ("파일이 너무 작음"), opened := false, closes := 0 } :=
  ⟨by decide, c4_small_file_rejected sampleSmall (by decide)⟩

/-- C5: for a candidate that passes the size, load and required-table
checks, a head magic number different from `0x5F0F3CF5` yields the
"invalid magic number" verdict (`"잘못된 매직넘버"`), and a failing head
read yields the "head section read failed" verdict
(`"head 테이블 읽기 실패"`). -/
theorem c5_head_magic_check (f : FontFile) (h1 : 1024 ≤ f.size) (h2 : f.loadOk = true)
    (h3 : firstMissingTable f.tables = none) :
    (f.headReadOk = true → f.magicNumber ≠ magicExpected →
       check_font_integrity f
         = { valid := false, reason := ("잘못된 매직넘버"), opened := true, closes := 1 })
    ∧ (f.headReadOk = false →
       check_font_integrity f
         = { valid := false, reason := ("head 테이블 읽기 실패"), opened := true, closes := 1 }) := by
  have hs : ¬ (f.size < 1024) := Nat.not_lt.mpr h1
  constructor
  · intro hh hm
    unfold check_font_integrity
    rw [if_neg hs]
    simp [h2, h3, hh, hm]
  · intro hh
    unfold check_font_integrity
    rw [if_neg hs]
    simp [h2, h3, hh]

/-- Sample font whose head magic constant was altered. -/
def sampleBadMagic : FontFile := { sampleGood with magicNumber := 7 }

/-- Sample font whose head table cannot be read. -/
def sampleHeadFail : FontFile := { sampleGood with headReadOk := false }

theorem c5_head_magic_check_witness :
    check_font_integrity sampleBadMagic
        = { valid := false, reason := ("잘못된 매직넘버"), opened := true, closes := 1 }
      ∧ check_font_integrity sampleHeadFail
        = { valid := false, reason := ("head 테이블 읽기 실패"), opened := true, closes := 1 } :=
  ⟨(c5_head_magic_check sampleBadMagic (by decide) (by decide) (by decide)).1
      (by decide) (by decide),
   (c5_head_magic_check sampleHeadFail (by decide) (by decide) (by decide)).2 (by decide)⟩

/-- C9: each processed candidate prints exactly one progress line — carrying
the processed/total counts, the percentage value, the filename and the
verdict — followed by exactly one reason line when and only when the
verdict is invalid, and nothing else. -/
theorem c9_one_progress_line (s : Session) (f : FontFile) :
    ((process_single_font s f).2
        = if (check_font_integrity f).valid then
            [OutLine.progress (s.processed_count + 1) s.total_count
               (ratPercent (s.processed_count + 1) s.total_count) f.path true]
          else
            [OutLine.progress (s.processed_count + 1) s.total_count
               (ratPercent (s.processed_count + 1) s.total_count) f.path false,
             OutLine.failReason ((check_font_integrity f).reason)])
    ∧ ((process_single_font s f).2.filter OutLine.isProgressLine).length = 1
    ∧ (process_single_font s f).2.length
        = if (check_font_integrity f).valid then 1 else 2 := by
  cases hv : (check_font_integrity f).valid <;>
    simp [process_single_font, hv, OutLine.isProgressLine, List.filter]

/-- Running the sweep over a task list adds its length to the processed
counter. -/
theorem scan_fonts_from_processed (l : List FontFile) :
    ∀ s : Session, (scan_fonts_from s l).1.processed_count = s.processed_count + l.length := by
  induction l with
  | nil => intro s; simp [scan_fonts_from]
  | cons f fs ih =>
    intro s
    simp only [scan_fonts_from]
    rw [ih, process_single_font_processed]
    simp [List.length_cons]
    omega

/-- Running the sweep never changes the total counter. -/
theorem scan_fonts_from_total_count (l : List FontFile) :
    ∀ s : Session, (scan_fonts_from s l).1.total_count = s.total_count := by
  induction l with
  | nil => intro s; simp [scan_fonts_from]
  | cons f fs ih =>
    intro s
    simp only [scan_fonts_from]
    rw [ih, process_single_font_total]

/-- C2: for any completion order (any permutation of the discovered
candidates, covering every worker count), `scan_fonts` ends with the
processed counter equal to the number of discovered candidates, and after
any number of completed tasks the processed counter never exceeds the total
counter. -/
theorem c2_processed_equals_total (dry : Bool) (w : Nat) (files order : List FontFile)
    (h : List.Perm order files) :
    (scan_fonts dry w files order).processed_count = files.length
    ∧ ∀ n : Nat,
        (scan_fonts_from (startSession dry w files) (order.take n)).1.processed_count
          ≤ (scan_fonts_from (startSession dry w files) (order.take n)).1.total_count := by
  have hlen : order.length = files.length := h.length_eq
  constructor
  · by_cases he : files.isEmpty = true
    · have hnil : files = [] := by
        cases files with
        | nil => rfl
        | cons g gs => simp at he
      subst hnil
      simp [scan_fonts, init_session]
    · unfold scan_fonts
      rw [if_neg he, scan_fonts_from_processed]
      simp [startSession, init_session]
      omega
  · intro n
    rw [scan_fonts_from_processed, scan_fonts_from_total_count]
    simp [startSession, init_session, List.length_take]
    omega

theorem c2_processed_equals_total_witness :
    (scan_fonts true 8 [sampleGood, sampleSmall] [sampleSmall, sampleGood]).processed_count = 2 :=
  (c2_processed_equals_total true 8 [sampleGood, sampleSmall] [sampleSmall, sampleGood]
    (List.Perm.swap sampleGood sampleSmall [])).1

/-- The deletion loop attempts every path in order and deletes exactly those
the filesystem lets it delete. -/
theorem deleteLoop_eq (removeOk : String → Bool) (l : List String) :
    deleteLoop removeOk l
      = { attempts := l, deleted := l.filter removeOk,
          deleted_count := (l.filter removeOk).length } := by
  induction l with
  | nil => rfl
  | cons p ps ih =>
    simp only [deleteLoop, ih]
    cases hp : removeOk p <;> simp [List.filter_cons, hp]

/-- C6: in dry-run mode `delete_corrupted_fonts` attempts and removes
nothing, however many corrupted records exist; in live mode it attempts
removal of exactly the corrupted paths in order — a failure on one path
never suppresses the attempts on later paths — deletes exactly those the
filesystem permits, and reports that number as the deleted count. -/
theorem c6_dry_run_and_live_deletion (s : Session) (removeOk : String → Bool) :
    ((delete_corrupted_fonts { s with dry_run := true } removeOk).deleted = []
      ∧ (delete_corrupted_fonts { s with dry_run := true } removeOk).attempts = [])
    ∧ ((delete_corrupted_fonts { s with dry_run := false } removeOk).attempts
          = corruptedPaths s
      ∧ (delete_corrupted_fonts { s with dry_run := false } removeOk).deleted
          = (corruptedPaths s).filter removeOk
      ∧ (delete_corrupted_fonts { s with dry_run := false } removeOk).deleted_count
          = ((corruptedPaths s).filter removeOk).length) := by
  cases hc : s.corrupted_fonts with
  | nil => simp [delete_corrupted_fonts, corruptedPaths, hc]
  | cons c cs =>
    simp [delete_corrupted_fonts, corruptedPaths, hc, deleteLoop_eq]

/-- C7: a live deletion happens only behind both gates — the `--delete`
flag (which sets `dry_run` to false) and the interactive answer `y`
(lowercased).  With the flag absent or any other answer, nothing is
deleted. -/
theorem c7_double_gate (df : Bool) (resp : String) (s : Session)
    (removeOk : String → Bool) :
    (main_confirm_flow df resp { s with dry_run := !df } removeOk).deleted
      = if df && (strLower resp == ("y")) then (corruptedPaths s).filter removeOk
        else [] := by
  cases hc : s.corrupted_fonts with
  | nil =>
    cases df <;> cases hy : (strLower resp == ("y")) <;>
      simp [main_confirm_flow, delete_corrupted_fonts, corruptedPaths, hc, hy]
  | cons c cs =>
    cases df <;> cases hy : (strLower resp == ("y")) <;>
      simp [main_confirm_flow, delete_corrupted_fonts, corruptedPaths, hc, hy,
        deleteLoop_eq]

/-- C8: the process exit code is 1 exactly when fontTools is missing or the
directory argument is not a directory; every other run — whatever the
candidates, the verdicts, or the deletion outcome — ends with the default
exit code 0, so finding corrupted fonts never causes a non-zero exit. -/
theorem c8_exit_codes (ft dir df : Bool) (t : Nat) (files order : List FontFile)
    (resp : String) (removeOk : String → Bool) :
    (main_run ft dir df t files order resp removeOk).exit_code
      = if ft && dir then 0 else 1 := by
  cases ft <;> cases dir <;> simp [main_run]

/-- C10: `find_otf_files` returns exactly the walked files whose lowercased
name ends in `.otf` (joined to their directory), so the extension filter is
case-insensitive and no other extension — `.ttf`, `.woff`, `.woff2`,
or a name merely containing `.otf` — is ever enumerated. -/
theorem c10_case_insensitive_otf_filter (walk : List (String × List String)) (p : String) :
    (p ∈ find_otf_files walk ↔
        ∃ e ∈ walk, ∃ fn ∈ e.2, isOtfName fn = true ∧ e.1 ++ ("/") ++ fn = p)
    ∧ isOtfName ("A.OTF") = true ∧ isOtfName ("b.Otf") = true
    ∧ isOtfName ("c.otf") = true ∧ isOtfName ("d.ttf") = false
    ∧ isOtfName ("e.woff") = false ∧ isOtfName ("f.woff2") = false
    ∧ isOtfName ("g.otf.bak") = false := by
  refine ⟨?_, by decide, by decide, by decide, by decide, by decide, by decide, by decide⟩
  induction walk with
  | nil => simp [find_otf_files]
  | cons e rest ih =>
    simp only [find_otf_files, List.mem_append, List.mem_map, List.mem_filter,
      List.mem_cons, ih]
    constructor
    · rintro (⟨fn, ⟨hfn, hotf⟩, hp⟩ | ⟨e', he', hrest⟩)
      · exact ⟨e, Or.inl rfl, fn, hfn, hotf, hp⟩
      · exact ⟨e', Or.inr he', hrest⟩
    · rintro ⟨e', (rfl | he'), fn, hfn, hotf, hp⟩
      · exact Or.inl ⟨fn, ⟨hfn, hotf⟩, hp⟩
      · exact Or.inr ⟨e', he', fn, hfn, hotf, hp⟩

end FontCheck
